import Mathlib

/-!
Shallow embedding of the KBFS change-notification subscription manager
(go/kbfs/libkbfs/subscription_manager.go) and proofs about it.

Go maps are embedded as association lists (lists of key/value pairs) with
lookup, erase and insert helpers; map mutation sites in the Go source are
translated one-to-one to these helpers.  Calls to external collaborators
(the change-source registrar of config.Notifier()) are recorded in
instrumentation fields of the state so that theorems can speak about the
externally observable registration traffic.
-/

/-- SubscriptionManagerClientID identifies a subscriptionManager client. -/
abbrev SubscriptionManagerClientID := String

/-- SubscriptionID is the caller-chosen subscription identifier. -/
abbrev SubscriptionID := String

/-- Model of data.FolderBranch: a top-level folder id plus a branch name.
The Go zero value data.FolderBranch\x7b\x7d is modelled by zeroFolderBranch. -/
structure FolderBranch where
  tlf : Nat
  branch : String
deriving DecidableEq, Repr

/-- The Go zero value of data.FolderBranch, used by subscribePath to detect
an unresolved or non-existent TLF. -/
def zeroFolderBranch : FolderBranch := ⟨0, ""⟩

/-- Model of keybase1.SubscriptionTopic (non-path topics). -/
inductive SubscriptionTopic where
  | FAVORITES
  | JOURNAL_STATUS
  | ONLINE_STATUS
  | DOWNLOAD_STATUS
  | FILES_TAB_BADGE
  | OVERALL_SYNC_STATUS
  | SETTINGS
  | UPLOAD_STATUS
deriving DecidableEq, Repr

/-- Model of keybase1.PathSubscriptionTopic (path topics). -/
inductive PathSubscriptionTopic where
  | CHILDREN
  | STAT
deriving DecidableEq, Repr

/-- cleanInTlfPath is a clean path rooted at a TLF, as in the Go source. -/
abbrev cleanInTlfPath := String

section AssocHelpers

variable {K V : Type} [DecidableEq K]

/-- Lookup in an association list, the embedding of a Go map read m[k]. -/
def lookupK (k : K) : List (K × V) → Option V
  | [] => none
  | (k', v) :: rest => if k' = k then some v else lookupK k rest

/-- Remove every binding of a key, the embedding of Go delete(m, k). -/
def eraseK (k : K) : List (K × V) → List (K × V)
  | [] => []
  | (k', v) :: rest => if k' = k then eraseK k rest else (k', v) :: eraseK k rest

/-- Set a binding, the embedding of a Go map write m[k] = v. -/
def insertK (k : K) (v : V) (l : List (K × V)) : List (K × V) :=
  eraseK k l ++ [(k, v)]

theorem lookupK_eraseK_self (k : K) (l : List (K × V)) :
    lookupK k (eraseK k l) = none := by
  induction l with
  | nil => rfl
  | cons e rest ih =>
    obtain ⟨k', v⟩ := e
    by_cases h : k' = k
    · simpa [eraseK, h] using ih
    · simpa [eraseK, lookupK, h] using ih

theorem lookupK_eraseK_ne (k k' : K) (l : List (K × V)) (h : k' ≠ k) :
    lookupK k (eraseK k' l) = lookupK k l := by
  induction l with
  | nil => rfl
  | cons e rest ih =>
    obtain ⟨k0, v⟩ := e
    by_cases h0 : k0 = k'
    · subst h0
      simp [eraseK, lookupK, h, ih]
    · by_cases h1 : k0 = k
      · simp [eraseK, lookupK, h0, h1, Ne.symm h]
      · simp [eraseK, lookupK, h0, h1, ih]

theorem eraseK_of_lookupK_none (k : K) (l : List (K × V))
    (h : lookupK k l = none) : eraseK k l = l := by
  induction l with
  | nil => rfl
  | cons e rest ih =>
    obtain ⟨k', v⟩ := e
    by_cases h0 : k' = k
    · simp [lookupK, h0] at h
    · simp only [lookupK, if_neg h0] at h
      simp [eraseK, h0, ih h]

theorem lookupK_append (k : K) (l l' : List (K × V)) :
    lookupK k (l ++ l') =
      match lookupK k l with
      | some v => some v
      | none => lookupK k l' := by
  induction l with
  | nil => rfl
  | cons e rest ih =>
    obtain ⟨k', v⟩ := e
    by_cases h : k' = k
    · simp [lookupK, h]
    · simp [lookupK, h, ih]

theorem lookupK_insertK_self (k : K) (v : V) (l : List (K × V)) :
    lookupK k (insertK k v l) = some v := by
  simp [insertK, lookupK_append, lookupK_eraseK_self, lookupK]

theorem lookupK_insertK_ne (k k' : K) (v : V) (l : List (K × V)) (h : k' ≠ k) :
    lookupK k (insertK k' v l) = lookupK k l := by
  simp only [insertK, lookupK_append, lookupK_eraseK_ne k k' l h]
  cases hl : lookupK k l with
  | none => simp [lookupK, h]
  | some w => simp

theorem mem_keys_eraseK (k k' : K) (l : List (K × V))
    (h : k ∈ (eraseK k' l).map Prod.fst) : k ∈ l.map Prod.fst ∧ k ≠ k' := by
  induction l with
  | nil => simp [eraseK] at h
  | cons e rest ih =>
    obtain ⟨k0, v⟩ := e
    by_cases h0 : k0 = k'
    · subst h0
      simp only [eraseK, if_pos rfl] at h
      rcases ih h with ⟨h1, h2⟩
      exact ⟨by simp [h1], h2⟩
    · simp only [eraseK, if_neg h0, List.map_cons, List.mem_cons] at h
      rcases h with h | h
      · subst h
        exact ⟨by simp, fun hk => h0 hk⟩
      · rcases ih h with ⟨h1, h2⟩
        exact ⟨by simp [h1], h2⟩

end AssocHelpers

section PathModel

/-- Last index of a slash in a character list, the embedding of the Go
strings.LastIndex(string(p), slash) call in getParentPath.  The returned
index is relative to the head of the list; none embeds the Go result -1. -/
def lastSlashIdxFrom : List Char → Option Nat
  | [] => none
  | c :: rest =>
    match lastSlashIdxFrom rest with
    | some j => some (j + 1)
    | none => if c = '/' then some 0 else none

/-- getParentPath from the Go source: the prefix of p up to (excluding) the
last slash, and none when the last slash index is at most 0. -/
def getParentPath (p : cleanInTlfPath) : Option cleanInTlfPath :=
  match lastSlashIdxFrom p.data with
  | none => none
  | some 0 => none
  | some i => some (String.mk (p.data.take i))

/-- Split a character list on slashes. Embeds the element iteration used by
Go path.Clean. -/
def splitOnSlashAux : List Char → List Char → List (List Char)
  | [], acc => [acc.reverse]
  | c :: rest, acc =>
    if c = '/' then acc.reverse :: splitOnSlashAux rest []
    else splitOnSlashAux rest (c :: acc)

/-- One step of the Go path.Clean element processing: skip empty and dot
elements, let dotdot pop the last kept element (or be kept itself when
nothing can be popped in a relative path), keep everything else.  The
accumulator holds the kept elements in reverse order. -/
def cleanPush (rooted : Bool) (acc : List (List Char)) (elem : List Char) :
    List (List Char) :=
  if elem = [] ∨ elem = ['.'] then acc
  else if elem = ['.', '.'] then
    match acc with
    | [] => if rooted then [] else [['.', '.']]
    | a :: rest => if a = ['.', '.'] then elem :: acc else rest
  else elem :: acc

/-- Join character-list components with slashes. -/
def joinSlash : List (List Char) → List Char
  | [] => []
  | [c] => c
  | c :: rest => c ++ '/' :: joinSlash rest

/-- Embedding of Go path.Clean, used by getCleanInTlfPath. -/
def pathClean (p : String) : String :=
  match p.data with
  | [] => "."
  | c :: rest =>
    let rooted := c = '/'
    let comps := (splitOnSlashAux (c :: rest) []).foldl (cleanPush rooted) []
    let joined := joinSlash comps.reverse
    if joined = [] then (if rooted then "/" else ".")
    else if rooted then String.mk ('/' :: joined) else String.mk joined

/-- parsedPath models the result of the external parsePath collaborator; only
the rawInTlfPath field is consumed by this file (by getCleanInTlfPath). -/
structure parsedPath where
  rawInTlfPath : String
deriving DecidableEq, Repr

/-- getCleanInTlfPath from the Go source. -/
def getCleanInTlfPath (p : parsedPath) : cleanInTlfPath :=
  pathClean p.rawInTlfPath

/-- Modelled at the interface boundary: the external path resolver used by
subscribePath, consisting of parsePath and parsedPath.getFolderBranch.
Errors are carried as strings, as the Go code propagates them verbatim. -/
structure ResolveEnv where
  parsePath : String → Except String parsedPath
  getFolderBranch : parsedPath → Except String FolderBranch

end PathModel

section ManagerModel

/-- pathSubscriptionRef from the Go source: the composite key bucketing path
subscribers. -/
structure pathSubscriptionRef where
  folderBranch : FolderBranch
  path : cleanInTlfPath
deriving DecidableEq, Repr

/-- The data captured by the debounced notify closure stored for a path
subscription: the raw subscribed path and topic passed to OnPathChange, and
the requested deduplicate interval (in nanoseconds). -/
structure pathSubEntry where
  subscribedPath : String
  topic : PathSubscriptionTopic
  dedupInterval : Option Nat
deriving DecidableEq, Repr

/-- The data captured by the debounced notify closure stored for a non-path
subscription. -/
structure nonPathSubEntry where
  dedupInterval : Option Nat
deriving DecidableEq, Repr

/-- Errors returned by the subscribe operations: errors propagated verbatim
from the external resolver, and the duplicate subscription ID error produced
by checkSubscriptionIDLocked. -/
inductive SMError where
  | external (e : String)
  | duplicateSubscriptionID (sid : SubscriptionID)
deriving DecidableEq, Repr

/-- State of one subscriptionManager.  The first six fields embed the Go
struct fields one-to-one (maps as association lists).  The last two fields
are instrumentation recording the calls this manager makes to the external
change source via config.Notifier(): RegisterForChanges and
UnregisterFromChanges, in order. -/
structure SMState where
  clientID : SubscriptionManagerClientID
  pathSubscriptions :
    List (pathSubscriptionRef × List (SubscriptionID × pathSubEntry))
  pathSubscriptionIDToRef : List (SubscriptionID × pathSubscriptionRef)
  nonPathSubscriptions :
    List (SubscriptionTopic × List (SubscriptionID × nonPathSubEntry))
  nonPathSubscriptionIDToTopic : List (SubscriptionID × SubscriptionTopic)
  subscriptionIDs : List (SubscriptionID × Bool)
  subscriptionCountByFolderBranch : List (FolderBranch × Int)
  extRegisterCalls : List FolderBranch
  extUnregisterCalls : List FolderBranch
deriving DecidableEq, Repr

/-- newSubscriptionManager from the Go source: all maps start empty. -/
def newSubscriptionManager (clientID : SubscriptionManagerClientID) : SMState :=
  { clientID := clientID
    pathSubscriptions := []
    pathSubscriptionIDToRef := []
    nonPathSubscriptions := []
    nonPathSubscriptionIDToTopic := []
    subscriptionIDs := []
    subscriptionCountByFolderBranch := []
    extRegisterCalls := []
    extUnregisterCalls := [] }

/-- Read of the count map with the Go zero value 0 for a missing key. -/
def countOf (st : SMState) (fb : FolderBranch) : Int :=
  (lookupK fb st.subscriptionCountByFolderBranch).getD 0

/-- Read of the subscriptionIDs map with the Go zero value false for a
missing key, as used by checkSubscriptionIDLocked. -/
def sidActive (st : SMState) (sid : SubscriptionID) : Bool :=
  (lookupK sid st.subscriptionIDs).getD false

/-- registerForChangesLocked from the Go source: on a count of 0 the manager
registers with the external change source; the count is always incremented. -/
def registerForChangesLocked (st : SMState) (fb : FolderBranch) : SMState :=
  let c := countOf st fb
  let st :=
    if c = 0 then { st with extRegisterCalls := st.extRegisterCalls ++ [fb] }
    else st
  { st with subscriptionCountByFolderBranch :=
      insertK fb (c + 1) st.subscriptionCountByFolderBranch }

/-- unregisterForChangesLocked from the Go source: on a count of exactly 1
the manager unregisters externally and deletes the count entry; otherwise the
count is only decremented. -/
def unregisterForChangesLocked (st : SMState) (fb : FolderBranch) : SMState :=
  let c := countOf st fb
  if c = 1 then
    { st with
      extUnregisterCalls := st.extUnregisterCalls ++ [fb]
      subscriptionCountByFolderBranch :=
        eraseK fb st.subscriptionCountByFolderBranch }
  else
    { st with subscriptionCountByFolderBranch :=
        insertK fb (c - 1) st.subscriptionCountByFolderBranch }

/-- subscribePath from the Go source.  The external resolver is passed as an
environment; errors from it are returned verbatim.  A zero folder branch is
ignored (successful no-op).  The duplicate check of checkSubscriptionIDLocked
runs after resolution; its setter runs at the end, as in the source. -/
def subscribePath (env : ResolveEnv) (st : SMState) (sid : SubscriptionID)
    (p : String) (topic : PathSubscriptionTopic) (dedupInterval : Option Nat) :
    Except SMError Unit × SMState :=
  match env.parsePath p with
  | .error e => (.error (.external e), st)
  | .ok parsed =>
    match env.getFolderBranch parsed with
    | .error e => (.error (.external e), st)
    | .ok fb =>
      if fb = zeroFolderBranch then
        (.ok (), st)
      else
        let nitp := getCleanInTlfPath parsed
        let ref : pathSubscriptionRef := ⟨fb, nitp⟩
        if sidActive st sid then
          (.error (.duplicateSubscriptionID sid), st)
        else
          let st := registerForChangesLocked st ref.folderBranch
          let bucket := (lookupK ref st.pathSubscriptions).getD []
          let bucket := insertK sid ⟨p, topic, dedupInterval⟩ bucket
          (.ok (),
            { st with
              pathSubscriptions := insertK ref bucket st.pathSubscriptions
              pathSubscriptionIDToRef :=
                insertK sid ref st.pathSubscriptionIDToRef
              subscriptionIDs := insertK sid true st.subscriptionIDs })

/-- subscribeNonPath from the Go source. -/
def subscribeNonPath (st : SMState) (sid : SubscriptionID)
    (topic : SubscriptionTopic) (dedupInterval : Option Nat) :
    Except SMError Unit × SMState :=
  if sidActive st sid then
    (.error (.duplicateSubscriptionID sid), st)
  else
    let bucket := (lookupK topic st.nonPathSubscriptions).getD []
    let bucket := insertK sid ⟨dedupInterval⟩ bucket
    (.ok (),
      { st with
        nonPathSubscriptions := insertK topic bucket st.nonPathSubscriptions
        nonPathSubscriptionIDToTopic :=
          insertK sid topic st.nonPathSubscriptionIDToTopic
        subscriptionIDs := insertK sid true st.subscriptionIDs })

/-- unsubscribePath from the Go source: a missing subscription ID returns
early with no mutation; a missing bucket returns after only the reverse-index
delete; the external unregistration runs only when the bucket empties. -/
def unsubscribePath (st : SMState) (sid : SubscriptionID) : SMState :=
  match lookupK sid st.pathSubscriptionIDToRef with
  | none => st
  | some ref =>
    let st :=
      { st with pathSubscriptionIDToRef :=
          eraseK sid st.pathSubscriptionIDToRef }
    match lookupK ref st.pathSubscriptions with
    | none => st
    | some bucket =>
      let bucket :=
        if (lookupK sid bucket).isSome then eraseK sid bucket else bucket
      let st :=
        { st with pathSubscriptions :=
            insertK ref bucket st.pathSubscriptions }
      let st :=
        if bucket.length = 0 then
          let st := unregisterForChangesLocked st ref.folderBranch
          { st with pathSubscriptions := eraseK ref st.pathSubscriptions }
        else st
      { st with subscriptionIDs := eraseK sid st.subscriptionIDs }

/-- unsubscribeNonPath from the Go source: empty topic buckets are kept. -/
def unsubscribeNonPath (st : SMState) (sid : SubscriptionID) : SMState :=
  match lookupK sid st.nonPathSubscriptionIDToTopic with
  | none => st
  | some topic =>
    let st :=
      { st with nonPathSubscriptionIDToTopic :=
          eraseK sid st.nonPathSubscriptionIDToTopic }
    match lookupK topic st.nonPathSubscriptions with
    | none => st
    | some bucket =>
      let bucket :=
        if (lookupK sid bucket).isSome then eraseK sid bucket else bucket
      let st :=
        { st with nonPathSubscriptions :=
            insertK topic bucket st.nonPathSubscriptions }
      { st with subscriptionIDs := eraseK sid st.subscriptionIDs }

/-- Unsubscribe of the subscriber facade: the path variant then the non-path
variant, each a no-op when the ID is absent from its index. -/
def unsubscribe (st : SMState) (sid : SubscriptionID) : SMState :=
  unsubscribeNonPath (unsubscribePath st sid) sid

/-- Shutdown of a subscriptionManager: collect the IDs of both indices, then
unsubscribe each (the online status tracker shutdown is external). -/
def smShutdown (st : SMState) : SMState :=
  let pathSids := st.pathSubscriptionIDToRef.map Prod.fst
  let nonPathSids := st.nonPathSubscriptionIDToTopic.map Prod.fst
  let st := pathSids.foldl unsubscribePath st
  nonPathSids.foldl unsubscribeNonPath st

/-- notifyRef from the Go source, with the notified subscription IDs as the
observable result: a missing bucket notifies nobody, otherwise every
subscriber in the bucket is notified. -/
def notifyRef (st : SMState) (ref : pathSubscriptionRef) :
    List SubscriptionID :=
  match lookupK ref st.pathSubscriptions with
  | none => []
  | some bucket => bucket.map Prod.fst

/-- Node models the two observables this code reads from a changed node. -/
structure Node where
  folderBranch : FolderBranch
  pathPlaintextSansTlf : Option String
deriving DecidableEq, Repr

/-- nodeChangeLocked from the Go source, with the notified subscription IDs
as the observable result: the exact-path bucket, then the parent-path bucket
when getParentPath yields a parent. -/
def nodeChangeLocked (st : SMState) (node : Node) : List SubscriptionID :=
  match node.pathPlaintextSansTlf with
  | none => []
  | some p =>
    let cleanPath : cleanInTlfPath := p
    notifyRef st ⟨node.folderBranch, cleanPath⟩ ++
      (match getParentPath cleanPath with
       | some parent => notifyRef st ⟨node.folderBranch, parent⟩
       | none => [])

/-- PublishChange from the Go source, with the notified subscription IDs as
the observable result: for the overall sync status topic every path
subscription in every bucket is notified first; then the non-path bucket of
the published topic, when present. -/
def publishChange (st : SMState) (topic : SubscriptionTopic) :
    List SubscriptionID :=
  (if topic = SubscriptionTopic.OVERALL_SYNC_STATUS then
    st.pathSubscriptions.flatMap (fun e => e.2.map Prod.fst)
  else []) ++
  (match lookupK topic st.nonPathSubscriptions with
   | none => []
   | some bucket => bucket.map Prod.fst)

end ManagerModel

section RegistryModel

/-- State of the subscriptionManagerManager registry. -/
structure SMMState where
  subscriptionManagers : List (SubscriptionManagerClientID × SMState)
  purgeableClientIDsFIFO : List SubscriptionManagerClientID
deriving DecidableEq, Repr

/-- maxPurgeableSubscriptionManagerClient from the Go source. -/
def maxPurgeableSubscriptionManagerClient : Nat := 3

/-- newSubscriptionManagerManager from the Go source. -/
def newSubscriptionManagerManager : SMMState :=
  { subscriptionManagers := [], purgeableClientIDsFIFO := [] }

/-- subscriptionManagerManager.get from the Go source: an existing manager is
returned as is; otherwise, for a purgeable client with the purgeable FIFO at
its bound, the oldest purgeable manager is shut down and evicted before
admission; a new manager is then created and recorded.  The Go code calls
Shutdown on the manager of the FIFO head before deleting it (and would crash
on a nil manager): the shutdown result is written back and then erased, so
the state effect is the erasure; its cancellation effect is captured by
smShutdown. -/
def smmGet (st : SMMState) (clientID : SubscriptionManagerClientID)
    (purgeable : Bool) : SMState × SMMState :=
  match lookupK clientID st.subscriptionManagers with
  | some sm => (sm, st)
  | none =>
    let st :=
      if purgeable then
        let st :=
          if st.purgeableClientIDsFIFO.length =
              maxPurgeableSubscriptionManagerClient then
            match st.purgeableClientIDsFIFO with
            | [] => st
            | toPurge :: rest =>
              let managers :=
                match lookupK toPurge st.subscriptionManagers with
                | some sm0 =>
                  insertK toPurge (smShutdown sm0) st.subscriptionManagers
                | none => st.subscriptionManagers
              { st with
                subscriptionManagers := eraseK toPurge managers
                purgeableClientIDsFIFO := rest }
          else st
        { st with purgeableClientIDsFIFO :=
            st.purgeableClientIDsFIFO ++ [clientID] }
      else st
    let sm := newSubscriptionManager clientID
    (sm,
      { st with subscriptionManagers :=
          insertK clientID sm st.subscriptionManagers })

end RegistryModel

section DebounceModel

/-- State of one debounce instance: the occupancy of the capacity-1 pending
channel, whether shutdown has cancelled the context (after which the
background loop has exited), and the number of callback launches (the go
do() statements) so far. -/
structure DebounceState where
  pending : Bool
  cancelled : Bool
  fired : Nat
deriving DecidableEq, Repr

/-- The state of a freshly created debounce pair. -/
def debounceInit : DebounceState := ⟨false, false, 0⟩

/-- getChSender from the Go source, as the effect of one notify call on the
capacity-1 channel.  A some result is a send that completes at once (for the
non-blocking sender a full channel hits the select default and the call is
dropped); none is the blocking sender stuck on a full channel, which can only
complete after a future receive. -/
def getChSender (blocking : Bool) (st : DebounceState) :
    Option DebounceState :=
  if st.pending then
    if blocking then none else some st
  else some { st with pending := true }

/-- The shutdown function returned by debounce: cancels the context. -/
def debounceShutdown (st : DebounceState) : DebounceState :=
  { st with cancelled := true }

/-- One iteration of the background loop of debounce, taken when the rate
limiter grants a token.  After cancellation limiter.Wait errors (or the
select takes ctx.Done()) and the loop has returned, so the state is
untouched; otherwise a pending notification is consumed and the callback is
launched asynchronously. -/
def schedulerPass (st : DebounceState) : DebounceState :=
  if st.cancelled then st
  else if st.pending then { st with pending := false, fired := st.fired + 1 }
  else st

/-- Events of a debounce trace: a caller invoking notify, or one
limiter-granted iteration of the background loop.  Within a single interval
of a finite-rate limiter with burst 1 at most one loopIter occurs; this is
the modelled contract of the external golang.org/x/time/rate limiter. -/
inductive DebEvent where
  | notify
  | loopIter
deriving DecidableEq, Repr

/-- One step of a debounce trace.  In unlimited mode a blocked notify leaves
the state unchanged (the caller is stuck; no notification was deposited). -/
def debStep (unlimited : Bool) (st : DebounceState) : DebEvent → DebounceState
  | .notify =>
    match getChSender unlimited st with
    | some st2 => st2
    | none => st
  | .loopIter => schedulerPass st

/-- Run a debounce trace. -/
def debRun (unlimited : Bool) (st : DebounceState) (evs : List DebEvent) :
    DebounceState :=
  evs.foldl (debStep unlimited) st

end DebounceModel

section ConcreteExamples

/-- A non-zero folder branch used by the concrete scenarios. -/
def fbOne : FolderBranch := ⟨1, "master"⟩

/-- A resolver for which every user path parses to itself as the in-TLF path
and resolves to the fbOne folder branch. -/
def envFBOne : ResolveEnv :=
  { parsePath := fun p => .ok ⟨p⟩
    getFolderBranch := fun _ => .ok fbOne }

/-- A resolver whose resolution always yields the zero folder branch, the
unresolved-TLF case. -/
def envZeroFB : ResolveEnv :=
  { parsePath := fun p => .ok ⟨p⟩
    getFolderBranch := fun _ => .ok zeroFolderBranch }

/-- Scenario for the count invariant: two subscriptions with distinct IDs on
the same path of the same folder branch. -/
def c1SamePathSt1 : SMState :=
  (subscribePath envFBOne (newSubscriptionManager "cli") "1" "/x"
    PathSubscriptionTopic.CHILDREN none).2

def c1SamePathSt2 : SMState :=
  (subscribePath envFBOne c1SamePathSt1 "2" "/x"
    PathSubscriptionTopic.CHILDREN none).2

def c1SamePathSt3 : SMState := unsubscribePath c1SamePathSt2 "1"

def c1SamePathSt4 : SMState := unsubscribePath c1SamePathSt3 "2"

/-- Scenario for the refcount round-trip: two subscriptions on different
paths of the same folder branch. -/
def c1DiffPathSt1 : SMState :=
  (subscribePath envFBOne (newSubscriptionManager "cli") "1" "/a"
    PathSubscriptionTopic.CHILDREN none).2

def c1DiffPathSt2 : SMState :=
  (subscribePath envFBOne c1DiffPathSt1 "2" "/b"
    PathSubscriptionTopic.CHILDREN none).2

def c1DiffPathSt3 : SMState := unsubscribePath c1DiffPathSt2 "1"

def c1DiffPathSt4 : SMState := unsubscribePath c1DiffPathSt3 "2"

/-- A manager with one active non-path subscription with ID s1, used to
exhibit a second subscribe call with an active ID. -/
def c2BaseSt : SMState :=
  (subscribeNonPath (newSubscriptionManager "cli") "s1"
    SubscriptionTopic.ONLINE_STATUS none).2

/-- A manager with path subscribers on /a, /a/b, /a/b/c and /a/b/c/d of the
same folder branch, for the change-propagation example. -/
def c3St : SMState :=
  (subscribePath envFBOne
    ((subscribePath envFBOne
      ((subscribePath envFBOne
        ((subscribePath envFBOne (newSubscriptionManager "cli") "c" "/a/b/c"
          PathSubscriptionTopic.CHILDREN none).2) "b" "/a/b"
        PathSubscriptionTopic.CHILDREN none).2) "a" "/a"
      PathSubscriptionTopic.CHILDREN none).2) "d" "/a/b/c/d"
    PathSubscriptionTopic.CHILDREN none).2

/-- A manager with a path subscriber on the TLF root and one on /a, for the
root-propagation example. -/
def c10St : SMState :=
  (subscribePath envFBOne
    ((subscribePath envFBOne (newSubscriptionManager "cli") "r" "/"
      PathSubscriptionTopic.CHILDREN none).2) "a" "/a"
    PathSubscriptionTopic.CHILDREN none).2

/-- A registry holding three purgeable managers and one non-purgeable one. -/
def c7St : SMMState :=
  (smmGet (smmGet (smmGet (smmGet newSubscriptionManagerManager
    "np" false).2 "p1" true).2 "p2" true).2 "p3" true).2

/-- The debounce trace used by the coalescing witness: three notify calls,
one loop iteration, one more notify, all within one limiter interval. -/
def c4Trace : List DebEvent :=
  [DebEvent.notify, DebEvent.notify, DebEvent.notify, DebEvent.loopIter,
   DebEvent.notify]

end ConcreteExamples

section HelperLemmas

theorem unregisterForChangesLocked_idToRef (st : SMState) (fb : FolderBranch) :
    (unregisterForChangesLocked st fb).pathSubscriptionIDToRef =
      st.pathSubscriptionIDToRef := by
  unfold unregisterForChangesLocked
  dsimp only
  split <;> rfl

theorem unregisterForChangesLocked_idToTopic (st : SMState)
    (fb : FolderBranch) :
    (unregisterForChangesLocked st fb).nonPathSubscriptionIDToTopic =
      st.nonPathSubscriptionIDToTopic := by
  unfold unregisterForChangesLocked
  dsimp only
  split <;> rfl

theorem unsubscribePath_idToRef (st : SMState) (sid : SubscriptionID) :
    (unsubscribePath st sid).pathSubscriptionIDToRef =
      eraseK sid st.pathSubscriptionIDToRef := by
  unfold unsubscribePath
  cases h : lookupK sid st.pathSubscriptionIDToRef with
  | none => exact (eraseK_of_lookupK_none _ _ h).symm
  | some ref =>
    dsimp only
    cases h2 : lookupK ref st.pathSubscriptions with
    | none => rfl
    | some bucket =>
      dsimp only
      split <;> split <;> simp [unregisterForChangesLocked_idToRef]

theorem unsubscribePath_idToTopic (st : SMState) (sid : SubscriptionID) :
    (unsubscribePath st sid).nonPathSubscriptionIDToTopic =
      st.nonPathSubscriptionIDToTopic := by
  unfold unsubscribePath
  cases h : lookupK sid st.pathSubscriptionIDToRef with
  | none => rfl
  | some ref =>
    dsimp only
    cases h2 : lookupK ref st.pathSubscriptions with
    | none => rfl
    | some bucket =>
      dsimp only
      split <;> split <;> simp [unregisterForChangesLocked_idToTopic]

theorem unsubscribeNonPath_idToTopic (st : SMState) (sid : SubscriptionID) :
    (unsubscribeNonPath st sid).nonPathSubscriptionIDToTopic =
      eraseK sid st.nonPathSubscriptionIDToTopic := by
  unfold unsubscribeNonPath
  cases h : lookupK sid st.nonPathSubscriptionIDToTopic with
  | none => exact (eraseK_of_lookupK_none _ _ h).symm
  | some topic =>
    dsimp only
    cases h2 : lookupK topic st.nonPathSubscriptions with
    | none => rfl
    | some bucket => split <;> rfl

theorem unsubscribeNonPath_idToRef (st : SMState) (sid : SubscriptionID) :
    (unsubscribeNonPath st sid).pathSubscriptionIDToRef =
      st.pathSubscriptionIDToRef := by
  unfold unsubscribeNonPath
  cases h : lookupK sid st.nonPathSubscriptionIDToTopic with
  | none => rfl
  | some topic =>
    dsimp only
    cases h2 : lookupK topic st.nonPathSubscriptions with
    | none => rfl
    | some bucket => split <;> rfl

theorem unsubscribePath_of_absent (st : SMState) (sid : SubscriptionID)
    (h : lookupK sid st.pathSubscriptionIDToRef = none) :
    unsubscribePath st sid = st := by
  unfold unsubscribePath
  rw [h]

theorem unsubscribeNonPath_of_absent (st : SMState) (sid : SubscriptionID)
    (h : lookupK sid st.nonPathSubscriptionIDToTopic = none) :
    unsubscribeNonPath st sid = st := by
  unfold unsubscribeNonPath
  rw [h]

theorem foldl_unsubscribePath_idToRef (sids : List SubscriptionID) :
    ∀ st : SMState,
      (sids.foldl unsubscribePath st).pathSubscriptionIDToRef =
        sids.foldl (fun m s => eraseK s m) st.pathSubscriptionIDToRef := by
  induction sids with
  | nil => intro st; rfl
  | cons s rest ih =>
    intro st
    simp only [List.foldl_cons]
    rw [ih, unsubscribePath_idToRef]

theorem foldl_unsubscribePath_idToTopic (sids : List SubscriptionID) :
    ∀ st : SMState,
      (sids.foldl unsubscribePath st).nonPathSubscriptionIDToTopic =
        st.nonPathSubscriptionIDToTopic := by
  induction sids with
  | nil => intro st; rfl
  | cons s rest ih =>
    intro st
    simp only [List.foldl_cons]
    rw [ih, unsubscribePath_idToTopic]

theorem foldl_unsubscribeNonPath_idToTopic (sids : List SubscriptionID) :
    ∀ st : SMState,
      (sids.foldl unsubscribeNonPath st).nonPathSubscriptionIDToTopic =
        sids.foldl (fun m s => eraseK s m) st.nonPathSubscriptionIDToTopic := by
  induction sids with
  | nil => intro st; rfl
  | cons s rest ih =>
    intro st
    simp only [List.foldl_cons]
    rw [ih, unsubscribeNonPath_idToTopic]

theorem foldl_unsubscribeNonPath_idToRef (sids : List SubscriptionID) :
    ∀ st : SMState,
      (sids.foldl unsubscribeNonPath st).pathSubscriptionIDToRef =
        st.pathSubscriptionIDToRef := by
  induction sids with
  | nil => intro st; rfl
  | cons s rest ih =>
    intro st
    simp only [List.foldl_cons]
    rw [ih, unsubscribeNonPath_idToRef]

theorem foldl_eraseK_of_keys_mem {K V : Type} [DecidableEq K]
    (sids : List K) :
    ∀ l : List (K × V), (∀ k ∈ l.map Prod.fst, k ∈ sids) →
      sids.foldl (fun m s => eraseK s m) l = [] := by
  induction sids with
  | nil =>
    intro l h
    cases l with
    | nil => rfl
    | cons e rest => exact absurd (h e.1 (by simp)) (by simp)
  | cons s rest ih =>
    intro l h
    simp only [List.foldl_cons]
    refine ih (eraseK s l) (fun k hk => ?_)
    rcases mem_keys_eraseK k s l hk with ⟨h1, h2⟩
    rcases List.mem_cons.mp (h k h1) with h3 | h3
    · exact absurd h3 h2
    · exact h3

theorem smShutdown_empty (m : SMState) :
    (smShutdown m).pathSubscriptionIDToRef = [] ∧
    (smShutdown m).nonPathSubscriptionIDToTopic = [] := by
  unfold smShutdown
  constructor
  · rw [foldl_unsubscribeNonPath_idToRef, foldl_unsubscribePath_idToRef]
    exact foldl_eraseK_of_keys_mem _ _ (fun k hk => hk)
  · rw [foldl_unsubscribeNonPath_idToTopic, foldl_unsubscribePath_idToTopic]
    exact foldl_eraseK_of_keys_mem _ _ (fun k hk => hk)

theorem debStep_notify_fired (u : Bool) (st : DebounceState) :
    (debStep u st DebEvent.notify).fired = st.fired := by
  unfold debStep getChSender
  by_cases hp : st.pending <;> by_cases hu : u <;> simp [hp, hu]

theorem schedulerPass_fired_le (st : DebounceState) :
    (schedulerPass st).fired ≤ st.fired + 1 := by
  unfold schedulerPass
  split
  · exact Nat.le_succ _
  · split
    · exact Nat.le_refl _
    · exact Nat.le_succ _

theorem debRun_fired_le (u : Bool) (evs : List DebEvent) :
    ∀ st : DebounceState,
      (debRun u st evs).fired ≤ st.fired + evs.count DebEvent.loopIter := by
  induction evs with
  | nil => intro st; simp [debRun]
  | cons e rest ih =>
    intro st
    have hstep : debRun u st (e :: rest) = debRun u (debStep u st e) rest :=
      rfl
    cases e with
    | notify =>
      rw [hstep]
      calc (debRun u (debStep u st DebEvent.notify) rest).fired
          ≤ (debStep u st DebEvent.notify).fired +
              rest.count DebEvent.loopIter := ih _
        _ = st.fired + rest.count DebEvent.loopIter := by
            rw [debStep_notify_fired]
        _ ≤ st.fired + (DebEvent.notify :: rest).count DebEvent.loopIter :=
            Nat.add_le_add_left (by simp [List.count_cons]) _
    | loopIter =>
      rw [hstep]
      calc (debRun u (debStep u st DebEvent.loopIter) rest).fired
          ≤ (debStep u st DebEvent.loopIter).fired +
              rest.count DebEvent.loopIter := ih _
        _ ≤ (st.fired + 1) + rest.count DebEvent.loopIter :=
            Nat.add_le_add_right (schedulerPass_fired_le st) _
        _ = st.fired + (DebEvent.loopIter :: rest).count DebEvent.loopIter :=
            by simp [List.count_cons]; omega

theorem debStep_cancelled_frozen (u : Bool) (st : DebounceState)
    (e : DebEvent) (hcanc : st.cancelled = true) :
    (debStep u st e).fired = st.fired ∧
    (debStep u st e).cancelled = true := by
  cases e with
  | notify =>
    refine ⟨debStep_notify_fired u st, ?_⟩
    unfold debStep getChSender
    by_cases hp : st.pending <;> by_cases hu : u <;> simp [hp, hu, hcanc]
  | loopIter =>
    unfold debStep schedulerPass
    rw [hcanc]
    exact ⟨rfl, hcanc⟩

theorem debRun_cancelled_frozen (u : Bool) (evs : List DebEvent) :
    ∀ st : DebounceState, st.cancelled = true →
      (debRun u st evs).fired = st.fired ∧
      (debRun u st evs).cancelled = true := by
  induction evs with
  | nil => intro st h; exact ⟨rfl, h⟩
  | cons e rest ih =>
    intro st h
    have hstep := debStep_cancelled_frozen u st e h
    have hrec := ih (debStep u st e) hstep.2
    exact ⟨hrec.1.trans hstep.1, hrec.2⟩

theorem lastSlashIdxFrom_of_no_slash (l : List Char) (h : '/' ∉ l) :
    lastSlashIdxFrom l = none := by
  induction l with
  | nil => rfl
  | cons c cs ih =>
    have hc : ¬ c = '/' := fun hc => h (by simp [hc])
    have hcs : '/' ∉ cs := fun hm => h (by simp [hm])
    simp [lastSlashIdxFrom, ih hcs, hc]

theorem mem_notifyRef (st : SMState) (ref : pathSubscriptionRef)
    (sid : SubscriptionID) :
    sid ∈ notifyRef st ref ↔
      ∃ b, lookupK ref st.pathSubscriptions = some b ∧
        sid ∈ b.map Prod.fst := by
  unfold notifyRef
  cases h : lookupK ref st.pathSubscriptions <;> simp [h]

end HelperLemmas

/-- C8: a SubscribePath call whose path resolves to the zero FolderBranch
(an unresolved or non-existent TLF) returns success and leaves the manager
state completely unchanged: no subscription is created, the SID stays
inactive, and no registration or reference count changes. -/
theorem claim_C8 (env : ResolveEnv) (st : SMState) (sid : SubscriptionID)
    (p : String) (topic : PathSubscriptionTopic) (dedup : Option Nat)
    (parsed : parsedPath)
    (hp : env.parsePath p = .ok parsed)
    (hfb : env.getFolderBranch parsed = .ok zeroFolderBranch) :
    subscribePath env st sid p topic dedup = (.ok (), st) := by
  unfold subscribePath
  rw [hp]
  dsimp only
  rw [hfb]
  simp

/-- Witness for C8 at a concrete resolver, manager and path: the call
succeeds and returns the state it was given. -/
theorem claim_C8_witness :
    subscribePath envZeroFB c2BaseSt "s2" "/keybase/private/a/b"
      PathSubscriptionTopic.CHILDREN none = (.ok (), c2BaseSt) :=
  claim_C8 envZeroFB c2BaseSt "s2" "/keybase/private/a/b"
    PathSubscriptionTopic.CHILDREN none ⟨"/keybase/private/a/b"⟩ rfl rfl

/-- C2 counterexample: with SID s1 already active (as a non-path
subscription), a second subscribePath call for s1 whose path resolves to the
zero FolderBranch returns success, not a DuplicateSubscription error: the
unresolved-TLF no-op runs before the duplicate check, refuting the claim as
stated for that combination. -/
theorem claim_C2_counterexample :
    sidActive c2BaseSt "s1" = true ∧
    subscribePath envZeroFB c2BaseSt "s1" "/keybase/private/a/b"
      PathSubscriptionTopic.CHILDREN none = (.ok (), c2BaseSt) := by
  constructor
  · decide
  · rfl

/-- C2 amended: for an already-active SID, a second subscribeNonPath call
always fails with the duplicate subscription error and leaves the state
unchanged; a second subscribePath call does so provided its path parses,
resolves, and yields a non-zero FolderBranch (resolution errors and the
unresolved-TLF no-op run before the duplicate check and take precedence). -/
theorem claim_C2_amended (env : ResolveEnv) (st : SMState)
    (sid : SubscriptionID) (p : String) (ptopic : PathSubscriptionTopic)
    (nptopic : SubscriptionTopic) (dedup : Option Nat)
    (parsed : parsedPath) (fb : FolderBranch)
    (hactive : sidActive st sid = true) :
    (env.parsePath p = .ok parsed → env.getFolderBranch parsed = .ok fb →
      fb ≠ zeroFolderBranch →
      subscribePath env st sid p ptopic dedup =
        (.error (.duplicateSubscriptionID sid), st)) ∧
    subscribeNonPath st sid nptopic dedup =
      (.error (.duplicateSubscriptionID sid), st) := by
  constructor
  · intro hp hfb hnz
    unfold subscribePath
    rw [hp]
    dsimp only
    rw [hfb]
    simp [hnz, hactive]
  · unfold subscribeNonPath
    simp [hactive]

/-- Witness for C2 amended: with s1 active in a concrete manager, a second
subscribePath on a path resolving to a real folder branch and a second
subscribeNonPath both fail with the duplicate error and leave the state
untouched. -/
theorem claim_C2_witness :
    subscribePath envFBOne c2BaseSt "s1" "/x" PathSubscriptionTopic.CHILDREN
        none = (.error (.duplicateSubscriptionID "s1"), c2BaseSt) ∧
    subscribeNonPath c2BaseSt "s1" SubscriptionTopic.FAVORITES none =
      (.error (.duplicateSubscriptionID "s1"), c2BaseSt) := by
  have h := claim_C2_amended envFBOne c2BaseSt "s1" "/x"
    PathSubscriptionTopic.CHILDREN SubscriptionTopic.FAVORITES none ⟨"/x"⟩
    fbOne (by decide)
  exact ⟨h.1 rfl rfl (by decide), h.2⟩

/-- C9: unsubscribing a SID that is absent from the relevant index is a
silent no-op that returns the state unchanged (the operations cannot signal
an error by construction, as in the Go source whose unsubscribe functions
return nothing), the public Unsubscribe facade is a no-op when the SID is in
neither index, and all three operations are idempotent on every state. -/
theorem claim_C9 (st : SMState) (sid : SubscriptionID) :
    (lookupK sid st.pathSubscriptionIDToRef = none →
      unsubscribePath st sid = st) ∧
    (lookupK sid st.nonPathSubscriptionIDToTopic = none →
      unsubscribeNonPath st sid = st) ∧
    (lookupK sid st.pathSubscriptionIDToRef = none →
      lookupK sid st.nonPathSubscriptionIDToTopic = none →
      unsubscribe st sid = st) ∧
    unsubscribePath (unsubscribePath st sid) sid = unsubscribePath st sid ∧
    unsubscribeNonPath (unsubscribeNonPath st sid) sid =
      unsubscribeNonPath st sid ∧
    unsubscribe (unsubscribe st sid) sid = unsubscribe st sid := by
  refine ⟨unsubscribePath_of_absent st sid,
    unsubscribeNonPath_of_absent st sid, ?_, ?_, ?_, ?_⟩
  · intro h1 h2
    unfold unsubscribe
    rw [unsubscribePath_of_absent st sid h1,
      unsubscribeNonPath_of_absent st sid h2]
  · refine unsubscribePath_of_absent _ sid ?_
    rw [unsubscribePath_idToRef]
    exact lookupK_eraseK_self sid st.pathSubscriptionIDToRef
  · refine unsubscribeNonPath_of_absent _ sid ?_
    rw [unsubscribeNonPath_idToTopic]
    exact lookupK_eraseK_self sid st.nonPathSubscriptionIDToTopic
  · unfold unsubscribe
    rw [unsubscribePath_of_absent
        (unsubscribeNonPath (unsubscribePath st sid) sid) sid
        (by rw [unsubscribeNonPath_idToRef, unsubscribePath_idToRef]
            exact lookupK_eraseK_self sid st.pathSubscriptionIDToRef),
      unsubscribeNonPath_of_absent
        (unsubscribeNonPath (unsubscribePath st sid) sid) sid
        (by rw [unsubscribeNonPath_idToTopic]
            exact lookupK_eraseK_self sid _)]

/-- Witness for C9 at a concrete state and SID: unsubscribing a never
subscribed SID from a manager holding one subscription leaves it unchanged,
and repeating an unsubscribe is idempotent. -/
theorem claim_C9_witness :
    unsubscribePath c2BaseSt "z" = c2BaseSt ∧
    unsubscribeNonPath c2BaseSt "z" = c2BaseSt ∧
    unsubscribe c2BaseSt "z" = c2BaseSt ∧
    unsubscribe (unsubscribe c2BaseSt "s1") "s1" =
      unsubscribe c2BaseSt "s1" := by
  have h := claim_C9 c2BaseSt "z"
  have h2 := claim_C9 c2BaseSt "s1"
  exact ⟨h.1 (by decide), h.2.1 (by decide),
    h.2.2.1 (by decide) (by decide), h2.2.2.2.2.2⟩

/-- C3: a change event carrying folder branch fb and in-container path p
notifies exactly the subscriptions bucketed under the key made of fb and p
and, when getParentPath yields a parent (one component up), those bucketed
under fb and that parent; no other bucket is notified.  Concretely, a change
at /a/b/c notifies the subscribers of /a/b/c and /a/b and not those of /a or
/a/b/c/d. -/
theorem claim_C3 (st : SMState) (fb : FolderBranch) (p : String)
    (sid : SubscriptionID) :
    (sid ∈ nodeChangeLocked st ⟨fb, some p⟩ ↔
      ((∃ b, lookupK (⟨fb, p⟩ : pathSubscriptionRef) st.pathSubscriptions =
          some b ∧ sid ∈ b.map Prod.fst) ∨
       (∃ par b, getParentPath p = some par ∧
          lookupK (⟨fb, par⟩ : pathSubscriptionRef) st.pathSubscriptions =
            some b ∧ sid ∈ b.map Prod.fst))) ∧
    nodeChangeLocked c3St ⟨fbOne, some "/a/b/c"⟩ = ["c", "b"] ∧
    "a" ∉ nodeChangeLocked c3St ⟨fbOne, some "/a/b/c"⟩ ∧
    "d" ∉ nodeChangeLocked c3St ⟨fbOne, some "/a/b/c"⟩ := by
  refine ⟨?_, by decide, by decide, by decide⟩
  unfold nodeChangeLocked
  dsimp only
  rw [List.mem_append]
  cases hpar : getParentPath p with
  | none => simp [mem_notifyRef, hpar]
  | some par => simp [mem_notifyRef, hpar]

/-- C6: PublishChange with the overall sync status topic notifies every
subscriber of every path bucket regardless of its own topic, plus every
non-path subscriber of that topic; PublishChange with any other topic
notifies exactly the non-path subscribers of that topic and no path
subscription. -/
theorem claim_C6 (st : SMState) (topic : SubscriptionTopic)
    (sid : SubscriptionID) :
    sid ∈ publishChange st topic ↔
      ((topic = SubscriptionTopic.OVERALL_SYNC_STATUS ∧
        ∃ ref b, (ref, b) ∈ st.pathSubscriptions ∧ sid ∈ b.map Prod.fst) ∨
       (∃ b, lookupK topic st.nonPathSubscriptions = some b ∧
         sid ∈ b.map Prod.fst)) := by
  unfold publishChange
  rw [List.mem_append]
  by_cases htop : topic = SubscriptionTopic.OVERALL_SYNC_STATUS <;>
    cases hb : lookupK topic st.nonPathSubscriptions <;>
      simp [htop, hb, List.mem_flatMap, Prod.exists]

/-- C10: getParentPath yields no parent for any path whose only slash is the
leading one (the TLF root itself included), so a subscriber keyed at the
root path is not notified of changes at top-level children: concretely, a
change at /foo notifies nobody in a manager subscribed at the root and at
/a, a change at the root notifies the root subscriber, and a change at /a/b
notifies the /a subscriber one level up. -/
theorem claim_C10 :
    (∀ rest : String, '/' ∉ rest.data →
      getParentPath ("/" ++ rest) = none) ∧
    nodeChangeLocked c10St ⟨fbOne, some "/foo"⟩ = [] ∧
    nodeChangeLocked c10St ⟨fbOne, some "/"⟩ = ["r"] ∧
    nodeChangeLocked c10St ⟨fbOne, some "/a/b"⟩ = ["a"] := by
  refine ⟨?_, by decide, by decide, by decide⟩
  intro rest hrest
  have hidx : lastSlashIdxFrom rest.data = none :=
    lastSlashIdxFrom_of_no_slash rest.data hrest
  have hdata : ("/" ++ rest).data = '/' :: rest.data := by
    simp [String.data_append]
  unfold getParentPath
  rw [hdata]
  simp [lastSlashIdxFrom, hidx]

/-- Witness for C10 at a concrete top-level path: a path with no slash after
the leading one has no parent. -/
theorem claim_C10_witness : getParentPath ("/" ++ "foo") = none :=
  claim_C10.1 "foo" (by decide)

/-- C4: in finite-rate (debounced) mode, any trace of notify calls within a
single rate limiter interval (hence containing at most one background loop
iteration, the contract of a burst-1 limiter) produces at most one callback
launch; a notify call that finds the pending slot occupied is dropped with
no state change rather than queued; and the non-blocking sender always
completes at once, so notify never blocks the caller. -/
theorem claim_C4 (st : DebounceState) (evs : List DebEvent)
    (hinterval : evs.count DebEvent.loopIter ≤ 1) :
    (debRun false st evs).fired ≤ st.fired + 1 ∧
    (∀ st2 : DebounceState, (getChSender false st2).isSome = true) ∧
    (∀ st2 : DebounceState, st2.pending = true →
      getChSender false st2 = some st2) := by
  refine ⟨?_, ?_, ?_⟩
  · calc (debRun false st evs).fired
        ≤ st.fired + evs.count DebEvent.loopIter := debRun_fired_le false evs st
      _ ≤ st.fired + 1 := Nat.add_le_add_left hinterval _
  · intro st2
    unfold getChSender
    split <;> simp
  · intro st2 h2
    unfold getChSender
    rw [h2]
    simp

/-- Witness for C4: a concrete one-interval trace with four notify calls and
one loop iteration launches the callback at most once (exactly once here),
and concrete senders complete. -/
theorem claim_C4_witness :
    (debRun false ⟨true, false, 0⟩ c4Trace).fired ≤ 0 + 1 ∧
    (getChSender false (⟨true, false, 0⟩ : DebounceState)).isSome = true ∧
    getChSender false (⟨true, false, 0⟩ : DebounceState) =
      some ⟨true, false, 0⟩ := by
  have h := claim_C4 ⟨true, false, 0⟩ c4Trace (by decide)
  exact ⟨h.1, h.2.1 ⟨true, false, 0⟩, h.2.2 ⟨true, false, 0⟩ rfl⟩

/-- C5 counterexample: at unlimited rate, after shutdown a first blocking
notify fills the pending slot and a second one does not complete: since the
background loop has exited (schedulerPass is the identity on a cancelled
state, so the slot is never drained), that caller blocks forever, which is
an observable effect, refuting the claim that every post-shutdown notify is
an unobservable no-op at any configured rate. -/
theorem claim_C5_counterexample :
    getChSender true (debounceShutdown debounceInit) =
      some ⟨true, true, 0⟩ ∧
    getChSender true (⟨true, true, 0⟩ : DebounceState) = none ∧
    schedulerPass (⟨true, true, 0⟩ : DebounceState) = ⟨true, true, 0⟩ := by
  decide

/-- C5 amended: after shutdown the background loop is permanently inert (a
loop iteration leaves a cancelled state unchanged) and no trace of further
events at any rate ever launches another callback; in finite-rate mode a
post-shutdown notify always completes at once as a no-op, but in
unlimited-rate mode it completes only while the pending slot is empty and
blocks the caller once the slot is occupied. -/
theorem claim_C5_amended (u : Bool) (st : DebounceState)
    (evs : List DebEvent) (hcanc : st.cancelled = true) :
    (debRun u st evs).fired = st.fired ∧
    (debRun u st evs).cancelled = true ∧
    schedulerPass st = st ∧
    (getChSender false st).isSome = true ∧
    (st.pending = false →
      getChSender true st = some { st with pending := true }) ∧
    (st.pending = true → getChSender true st = none) := by
  refine ⟨(debRun_cancelled_frozen u evs st hcanc).1,
    (debRun_cancelled_frozen u evs st hcanc).2, ?_, ?_, ?_, ?_⟩
  · unfold schedulerPass
    rw [hcanc]
    simp
  · unfold getChSender
    split <;> simp
  · intro hp
    unfold getChSender
    rw [hp]
    simp
  · intro hp
    unfold getChSender
    rw [hp]
    simp

/-- C7: get returns an existing manager unchanged; on a miss with a
purgeable client while the purgeable FIFO holds exactly 3 IDs, the manager
of the oldest (head, first-created) purgeable ID is shut down, which cancels
all its subscriptions (both ID indices of a shut-down manager are empty),
and it is removed before the new one is admitted at the FIFO tail; a later
get for the evicted ID returns a brand-new empty manager; and a client
absent from the purgeable FIFO is never removed by any get call. -/
theorem claim_C7 (st : SMMState) (cid cid2 : SubscriptionManagerClientID)
    (purgeable p2 : Bool) (m mOld m2 : SMState)
    (a : SubscriptionManagerClientID)
    (rest : List SubscriptionManagerClientID) :
    (lookupK cid st.subscriptionManagers = some m →
      smmGet st cid purgeable = (m, st)) ∧
    (lookupK cid st.subscriptionManagers = none →
      st.purgeableClientIDsFIFO = a :: rest →
      (a :: rest).length = maxPurgeableSubscriptionManagerClient →
      a ≠ cid →
      (smmGet st cid true).2.purgeableClientIDsFIFO = rest ++ [cid] ∧
      lookupK a (smmGet st cid true).2.subscriptionManagers = none ∧
      lookupK cid (smmGet st cid true).2.subscriptionManagers =
        some (newSubscriptionManager cid) ∧
      (smmGet st cid true).1 = newSubscriptionManager cid ∧
      (smmGet (smmGet st cid true).2 a p2).1 = newSubscriptionManager a) ∧
    ((smShutdown mOld).pathSubscriptionIDToRef = [] ∧
      (smShutdown mOld).nonPathSubscriptionIDToTopic = []) ∧
    ((newSubscriptionManager cid).pathSubscriptionIDToRef = [] ∧
      (newSubscriptionManager cid).nonPathSubscriptionIDToTopic = [] ∧
      (newSubscriptionManager cid).subscriptionIDs = []) ∧
    (cid2 ∉ st.purgeableClientIDsFIFO →
      lookupK cid2 st.subscriptionManagers = some m2 →
      lookupK cid2 (smmGet st cid purgeable).2.subscriptionManagers =
        some m2) := by
  refine ⟨?_, ?_, smShutdown_empty mOld, ⟨rfl, rfl, rfl⟩, ?_⟩
  · intro h
    unfold smmGet
    rw [h]
  · intro hnone hfifo hlen hne
    have hout : ∀ M : List (SubscriptionManagerClientID × SMState),
        lookupK a (insertK cid (newSubscriptionManager cid)
          (eraseK a M)) = none := by
      intro M
      rw [lookupK_insertK_ne a cid _ _ (Ne.symm hne), lookupK_eraseK_self]
    have hfresh : ∀ st2 : SMMState,
        lookupK a st2.subscriptionManagers = none →
        (smmGet st2 a p2).1 = newSubscriptionManager a := by
      intro st2 h2
      unfold smmGet
      rw [h2]
    cases hl : lookupK a st.subscriptionManagers with
    | some sm0 =>
      have hstep : smmGet st cid true =
          (newSubscriptionManager cid,
           { subscriptionManagers :=
               insertK cid (newSubscriptionManager cid)
                 (eraseK a (insertK a (smShutdown sm0)
                   st.subscriptionManagers))
             purgeableClientIDsFIFO := rest ++ [cid] }) := by
        unfold smmGet
        rw [hnone]
        dsimp only
        rw [hfifo]
        simp [hlen, hl]
      rw [hstep]
      exact ⟨rfl, hout _, lookupK_insertK_self .., rfl, hfresh _ (hout _)⟩
    | none =>
      have hstep : smmGet st cid true =
          (newSubscriptionManager cid,
           { subscriptionManagers :=
               insertK cid (newSubscriptionManager cid)
                 (eraseK a st.subscriptionManagers)
             purgeableClientIDsFIFO := rest ++ [cid] }) := by
        unfold smmGet
        rw [hnone]
        dsimp only
        rw [hfifo]
        simp [hlen, hl]
      rw [hstep]
      exact ⟨rfl, hout _, lookupK_insertK_self .., rfl, hfresh _ (hout _)⟩
  · intro hnotin hsome
    unfold smmGet
    cases hc : lookupK cid st.subscriptionManagers with
    | some m3 => exact hsome
    | none =>
      have hne2 : cid2 ≠ cid := by
        intro he
        rw [he] at hsome
        rw [hsome] at hc
        exact Option.noConfusion hc
      have hpres : ∀ M : List (SubscriptionManagerClientID × SMState),
          lookupK cid2 (insertK cid (newSubscriptionManager cid) M) =
            lookupK cid2 M :=
        fun M => lookupK_insertK_ne cid2 cid _ M (Ne.symm hne2)
      dsimp only
      rw [hpres]
      cases purgeable with
      | false =>
        rw [if_neg (show ¬(false = true) by decide)]
        exact hsome
      | true =>
        rw [if_pos rfl]
        dsimp only
        by_cases hlen : st.purgeableClientIDsFIFO.length =
            maxPurgeableSubscriptionManagerClient
        · rw [if_pos hlen]
          cases hfifo : st.purgeableClientIDsFIFO with
          | nil => exact hsome
          | cons toPurge rest2 =>
            have hne3 : cid2 ≠ toPurge := by
              intro he
              exact hnotin (by rw [hfifo, he]; simp)
            dsimp only
            cases hl : lookupK toPurge st.subscriptionManagers with
            | some sm0 =>
              rw [lookupK_eraseK_ne cid2 toPurge _ (Ne.symm hne3),
                lookupK_insertK_ne cid2 toPurge _ _ (Ne.symm hne3)]
              exact hsome
            | none =>
              rw [lookupK_eraseK_ne cid2 toPurge _ (Ne.symm hne3)]
              exact hsome
        · rw [if_neg hlen]
          exact hsome

/-- Witness for C7 at a concrete registry with three purgeable managers and
a non-purgeable one: the hit returns the stored manager unchanged; asking
for a 4th purgeable client evicts p1 (and only p1), admits p4, and a later
get for p1 returns a fresh empty manager; the non-purgeable np survives. -/
theorem claim_C7_witness :
    smmGet c7St "np" false = (newSubscriptionManager "np", c7St) ∧
    (smmGet c7St "p4" true).2.purgeableClientIDsFIFO = ["p2", "p3", "p4"] ∧
    lookupK "p1" (smmGet c7St "p4" true).2.subscriptionManagers = none ∧
    lookupK "p4" (smmGet c7St "p4" true).2.subscriptionManagers =
      some (newSubscriptionManager "p4") ∧
    (smmGet c7St "p4" true).1 = newSubscriptionManager "p4" ∧
    (smmGet (smmGet c7St "p4" true).2 "p1" true).1 =
      newSubscriptionManager "p1" ∧
    (smShutdown (newSubscriptionManager "p1")).pathSubscriptionIDToRef =
      [] ∧
    lookupK "np" (smmGet c7St "p4" true).2.subscriptionManagers =
      some (newSubscriptionManager "np") := by
  have h := claim_C7 c7St "p4" "np" true true (newSubscriptionManager "np")
    (newSubscriptionManager "p1") (newSubscriptionManager "np") "p1"
    ["p2", "p3"]
  have h2 := claim_C7 c7St "np" "np" false true (newSubscriptionManager "np")
    (newSubscriptionManager "p1") (newSubscriptionManager "np") "p1"
    ["p2", "p3"]
  have hev := h.2.1 (by decide) (by decide) (by decide) (by decide)
  exact ⟨h2.1 (by decide), hev.1, hev.2.1, hev.2.2.1, hev.2.2.2.1,
    hev.2.2.2.2, h.2.2.1.1, h.2.2.2.2 (by decide) (by decide)⟩

/-- C1: evaluation of the reference counting at the failing input.  With two
subscriptions (IDs 1 and 2) on the same path of one folder branch, removing
ID 1 leaves the count at 2 although one active path subscription remains,
and removing ID 2 leaves the count stuck at 1 with no active subscription
and no UnregisterFromChanges call ever issued, against the claimed
count-equals-distinct-SIDs invariant and round-trip to zero.  The second
half evaluates the different-paths scenario quoted by the claim, which does
hold: one registration, and one unregistration only after both removals. -/
theorem claim_C1_eval :
    (countOf c1SamePathSt3 fbOne = 2 ∧
      c1SamePathSt3.pathSubscriptionIDToRef.map Prod.fst = ["2"] ∧
      countOf c1SamePathSt4 fbOne = 1 ∧
      c1SamePathSt4.pathSubscriptionIDToRef = [] ∧
      c1SamePathSt4.extRegisterCalls = [fbOne] ∧
      c1SamePathSt4.extUnregisterCalls = []) ∧
    (c1DiffPathSt2.extRegisterCalls = [fbOne] ∧
      c1DiffPathSt3.extUnregisterCalls = [] ∧
      c1DiffPathSt4.extRegisterCalls = [fbOne] ∧
      c1DiffPathSt4.extUnregisterCalls = [fbOne] ∧
      countOf c1DiffPathSt4 fbOne = 0) := by
  decide

/-- Witness for C5 amended: a concrete post-shutdown state with an occupied
slot: further traces fire nothing, the loop is inert, the non-blocking
sender completes, the blocking sender does not. -/
theorem claim_C5_witness :
    (debRun true ⟨true, true, 3⟩ c4Trace).fired = 3 ∧
    (debRun true ⟨true, true, 3⟩ c4Trace).cancelled = true ∧
    schedulerPass (⟨true, true, 3⟩ : DebounceState) = ⟨true, true, 3⟩ ∧
    (getChSender false (⟨true, true, 3⟩ : DebounceState)).isSome = true ∧
    getChSender true (⟨true, true, 3⟩ : DebounceState) = none := by
  have h := claim_C5_amended true ⟨true, true, 3⟩ c4Trace rfl
  exact ⟨h.1, h.2.1, h.2.2.1, h.2.2.2.1, h.2.2.2.2.2 rfl⟩
